import Mathlib

/-!
Shallow embedding of the FinanceBot ledger (src/db/database_manager.py),
its configuration constants (src/config/settings.py), the conversation
state store (src/core/bot_manager.py) and the chat dispatch layer
(src/handlers/*). Monetary REAL columns are modelled as exact integers in
hundredths (cents) — the fixed-point representation the behavioural spec
itself prescribes for amounts — SQLite tables as Lean lists of row
structures, and Python dates as a calendar date structure with the
Gregorian month lengths used by `calendar.monthrange`.
-/

namespace FinanceBot

/-- Gregorian leap-year rule, as implemented by Python's `calendar` module. -/
def isLeap (y : ℕ) : Bool :=
  y % 4 == 0 && (y % 100 != 0 || y % 400 == 0)

/-- Number of days of month `m` of year `y` (`calendar.monthrange(y, m)[1]`). -/
def daysInMonth (y m : ℕ) : ℕ :=
  if m = 2 then (if isLeap y then 29 else 28)
  else if m = 4 ∨ m = 6 ∨ m = 9 ∨ m = 11 then 30
  else 31

/-- A calendar date, mirroring Python's `datetime.date` value. -/
structure Date where
  year : ℕ
  month : ℕ
  day : ℕ
  deriving DecidableEq, Repr

/-- Valid calendar dates: the only values `datetime.date(y, m, d)` constructs
without raising `ValueError`. -/
def Date.Valid (d : Date) : Prop :=
  1 ≤ d.month ∧ d.month ≤ 12 ∧ 1 ≤ d.day ∧ d.day ≤ daysInMonth d.year d.month

instance (d : Date) : Decidable d.Valid := by
  unfold Date.Valid; infer_instance

/-- Python's `datetime.date(y, m, d)` constructor: `some` on a valid date,
`none` when the constructor would raise `ValueError`. -/
def mkDate (y m d : ℕ) : Option Date :=
  if 1 ≤ m ∧ m ≤ 12 ∧ 1 ≤ d ∧ d ≤ daysInMonth y m then some ⟨y, m, d⟩ else none

/-- Strict lexicographic order on dates (the order of SQLite DATE values). -/
def Date.lt (a b : Date) : Bool :=
  a.year < b.year ∨ (a.year = b.year ∧ a.month < b.month) ∨
    (a.year = b.year ∧ a.month = b.month ∧ a.day < b.day)

/-- Non-strict date order (`fecha <= hoy` comparisons in queries). -/
def Date.le (a b : Date) : Bool :=
  Date.lt a b ∨ a = b

/-- Python's `str.strip()`: drop leading and trailing whitespace. -/
def pyStrip (s : String) : String :=
  ⟨((s.data.dropWhile Char.isWhitespace).reverse.dropWhile Char.isWhitespace).reverse⟩

namespace BotConstants

/-- `BotConstants.MIN_AMOUNT = 0.01` from src/config/settings.py, in
hundredths: 1 cent. -/
def MIN_AMOUNT : ℤ := 1

/-- `BotConstants.MAX_AMOUNT = 999999999.99` from src/config/settings.py,
in hundredths: 99999999999 cents. -/
def MAX_AMOUNT : ℤ := 99999999999

/-- `BotConstants.MOVEMENT_TYPES`. -/
def MOVEMENT_TYPES : List String := ["ingreso", "gasto", "ahorro"]

/-- `BotConstants.MAX_DESCRIPTION_LENGTH`. -/
def MAX_DESCRIPTION_LENGTH : ℕ := 500

/-- `BotConstants.MAX_SUBSCRIPTION_NAME_LENGTH`. -/
def MAX_SUBSCRIPTION_NAME_LENGTH : ℕ := 100

/-- `BotConstants.DEBT_TYPES`: this attribute is never defined in
src/config/settings.py (or anywhere else), so a Python attribute lookup
raises `AttributeError`; the absence is modelled as `none`. -/
def DEBT_TYPES : Option (List String) := none

/-- `BotConstants.ALERT_TYPES`: likewise never defined anywhere; lookup
raises `AttributeError`, modelled as `none`. -/
def ALERT_TYPES : Option (List String) := none

/-- `BotConstants.MAX_DEBT_NAME_LENGTH`: likewise never defined anywhere. -/
def MAX_DEBT_NAME_LENGTH : Option ℕ := none

end BotConstants

/-- A row of the `usuarios` table. -/
structure Usuario where
  user_id : ℤ
  balance_inicial : ℤ
  configurado : Bool
  deriving DecidableEq, Repr

/-- A row of the `movimientos` table. -/
structure Mov where
  id : ℕ
  fecha : Date
  tipo : String
  categoria : String
  monto : ℤ
  descripcion : String
  mes : ℕ
  anio : ℕ
  user_id : ℤ
  deriving DecidableEq, Repr

/-- A row of the `suscripciones` table. -/
structure Suscripcion where
  id : ℕ
  nombre : String
  monto : ℤ
  categoria : String
  dia_cobro : ℕ
  activo : Bool
  proximo_cobro : Date
  user_id : ℤ
  deriving DecidableEq, Repr

/-- A row of the `alertas` table. -/
structure Alerta where
  id : ℕ
  tipo : String
  limite : ℤ
  activa : Bool
  user_id : ℤ
  deriving DecidableEq, Repr

/-- A row of the `deudas` table. -/
structure Deuda where
  id : ℕ
  nombre : String
  monto : ℤ
  tipo : String
  activa : Bool
  descripcion : String
  user_id : ℤ
  deriving DecidableEq, Repr

/-- A row of the `resumen_mensual` derived-cache table. -/
structure ResumenMensual where
  mes : ℕ
  anio : ℕ
  total_ingresos : ℤ
  total_gastos : ℤ
  total_ahorros : ℤ
  balance_final : ℤ
  user_id : ℤ
  deriving DecidableEq, Repr

/-- A row of the `balance_diario` derived-cache table. -/
structure BalanceDiario where
  fecha : Date
  ingresos : ℤ
  gastos : ℤ
  ahorros : ℤ
  balance_final : ℤ
  user_id : ℤ
  deriving DecidableEq, Repr

/-- The structured payload (`datos_json`) of a limit-alert notification. -/
structure DatosAlerta where
  tipo : String
  limite : ℤ
  gastado : ℤ
  exceso : ℤ
  deriving DecidableEq, Repr

/-- A row of the `notificaciones_pendientes` outbox table (the message text
column is presentation-only and not modelled). -/
structure Notificacion where
  user_id : ℤ
  tipo : String
  datos : DatosAlerta
  procesada : Bool
  deriving DecidableEq, Repr

/-- The database state: one list of rows per table, plus the `movimientos`
AUTOINCREMENT counter. -/
structure DB where
  usuarios : List Usuario
  movimientos : List Mov
  suscripciones : List Suscripcion
  alertas : List Alerta
  deudas : List Deuda
  resumen_mensual : List ResumenMensual
  balance_diario : List BalanceDiario
  notificaciones : List Notificacion
  next_mov_id : ℕ
  next_sus_id : ℕ
  deriving DecidableEq, Repr

/-- The empty database (all tables empty, as after `initialize`). -/
def DB.empty : DB :=
  ⟨[], [], [], [], [], [], [], [], 1, 1⟩

/-- Sum of the `monto` column of a list of movement rows. -/
def sumMonto (ms : List Mov) : ℤ :=
  (ms.map (·.monto)).sum

/-- `SUM(monto)` over a user's movements of one `tipo` on one date
(the daily aggregation query). -/
def sumTipoFecha (ms : List Mov) (uid : ℤ) (tipo : String) (fecha : Date) : ℤ :=
  sumMonto (ms.filter (fun m => m.user_id = uid ∧ m.tipo = tipo ∧ m.fecha = fecha))

/-- `SUM(monto)` over a user's movements of one `tipo` in one month/year
(the monthly aggregation query). -/
def sumTipoMes (ms : List Mov) (uid : ℤ) (tipo : String) (mes anio : ℕ) : ℤ :=
  sumMonto (ms.filter (fun m => m.user_id = uid ∧ m.tipo = tipo ∧ m.mes = mes ∧ m.anio = anio))

/-- The signed amount a movement row contributes to the balance query of
`obtener_balance_actual` (the `CASE WHEN tipo ... END` expression). -/
def signedMonto (m : Mov) : ℤ :=
  if m.tipo = "ingreso" then m.monto
  else if m.tipo = "gasto" then -m.monto
  else if m.tipo = "ahorro" then -m.monto
  else 0

/-- `SELECT balance_inicial FROM usuarios WHERE user_id = ? LIMIT 1`,
defaulting to 0 when the user row is absent. -/
def balanceInicial (db : DB) (uid : ℤ) : ℤ :=
  ((db.usuarios.filter (fun u => u.user_id = uid)).head?.map (·.balance_inicial)).getD 0

/-- `DatabaseManager.obtener_balance_actual`: initial balance plus the summed
signed amounts of the user's movements. -/
def obtener_balance_actual (db : DB) (uid : ℤ) : ℤ :=
  balanceInicial db uid +
    ((db.movimientos.filter (fun m => m.user_id = uid)).map signedMonto).sum

/-- `DatabaseManager._invalidar_resumen_mensual`: `DELETE FROM resumen_mensual
WHERE user_id = ? AND mes = ? AND año = ?`. Returns the new state and the
cursor rowcount of the DELETE. -/
def invalidarResumenMensual (db : DB) (uid : ℤ) (mes anio : ℕ) : DB × ℤ :=
  let keep := db.resumen_mensual.filter
    (fun r => ¬(r.user_id = uid ∧ r.mes = mes ∧ r.anio = anio))
  ({ db with resumen_mensual := keep },
   (db.resumen_mensual.length - keep.length : ℤ))

/-- `DatabaseManager._actualizar_balance_diario`: re-aggregate the user's
movements of the given date per tipo and `INSERT OR REPLACE` the
`balance_diario` row keyed `(fecha, user_id)`. The cursor last runs the
INSERT OR REPLACE, so its rowcount ends at 1. -/
def actualizarBalanceDiario (db : DB) (uid : ℤ) (fecha : Date) : DB × ℤ :=
  let row : BalanceDiario :=
    { fecha := fecha
      ingresos := sumTipoFecha db.movimientos uid "ingreso" fecha
      gastos := sumTipoFecha db.movimientos uid "gasto" fecha
      ahorros := sumTipoFecha db.movimientos uid "ahorro" fecha
      balance_final := 0
      user_id := uid }
  ({ db with balance_diario :=
      (db.balance_diario.filter (fun r => ¬(r.fecha = fecha ∧ r.user_id = uid))) ++ [row] },
   1)

/-- The outbox row `_guardar_notificacion_alerta` builds: kind
`alerta_limite`, unprocessed, payload carrying the scope, the limit, the
amount spent and the excess `gastado - limite`. -/
def notifAlerta (uid : ℤ) (tipo : String) (limite gastado : ℤ) : Notificacion :=
  { user_id := uid, tipo := "alerta_limite",
    datos := { tipo := tipo, limite := limite, gastado := gastado,
               exceso := gastado - limite },
    procesada := false }

/-- `DatabaseManager._guardar_notificacion_alerta`: append one unprocessed
`alerta_limite` outbox row. -/
def guardarNotificacionAlerta (db : DB) (uid : ℤ) (tipo : String)
    (limite gastado : ℤ) : DB :=
  { db with notificaciones := db.notificaciones ++ [notifAlerta uid tipo limite gastado] }

/-- `SELECT limite FROM alertas WHERE user_id = ? AND tipo = ? AND activa = 1
LIMIT 1`. -/
def alertaActiva (db : DB) (uid : ℤ) (tipo : String) : Option Alerta :=
  (db.alertas.filter (fun a => a.user_id = uid ∧ a.tipo = tipo ∧ a.activa)).head?

/-- The daily-alert block of `_verificar_alertas_limites`: when the user
has an active `diario` alert, sum today's expenses and fire exactly when
the sum strictly exceeds the limit. -/
def verificarAlertaDiaria (db : DB) (uid : ℤ) (hoy : Date) : DB :=
  match alertaActiva db uid "diario" with
  | some a =>
    let gastosDia := sumTipoFecha db.movimientos uid "gasto" hoy
    if a.limite < gastosDia then
      guardarNotificacionAlerta db uid "diario" a.limite gastosDia
    else db
  | none => db

/-- The monthly-alert block of `_verificar_alertas_limites`: like the daily
block but summed over the current `(mes, año)`; also reports the final
cursor rowcount (1 after the notification INSERT, -1 after a SELECT). -/
def verificarAlertaMensual (db : DB) (uid : ℤ) (hoy : Date) : DB × ℤ :=
  match alertaActiva db uid "mensual" with
  | some a =>
    let gastosMes := sumTipoMes db.movimientos uid "gasto" hoy.month hoy.year
    if a.limite < gastosMes then
      (guardarNotificacionAlerta db uid "mensual" a.limite gastosMes, 1)
    else (db, -1)
  | none => (db, -1)

/-- `DatabaseManager._verificar_alertas_limites`: after an expense insert,
check the daily and then the monthly active alert. `rc` threads the cursor
rowcount: a non-`gasto` movement runs no statement. -/
def verificarAlertasLimites (db : DB) (rc : ℤ) (uid : ℤ)
    (tipoMovimiento : String) (hoy : Date) : DB × ℤ :=
  if tipoMovimiento ≠ "gasto" then (db, rc)
  else verificarAlertaMensual (verificarAlertaDiaria db uid hoy) uid hoy

/-- `DatabaseManager.agregar_movimiento`: validate tipo and amount, truncate
overlong descriptions, insert the movement dated today with derived
`(mes, año)`, invalidate the affected monthly summary, refresh the daily
summary, and evaluate limit alerts. The returned Bool is the source's
`cursor.rowcount > 0` on the cursor as it stands after the alert check. -/
def agregar_movimiento (hoy : Date) (db : DB) (uid : ℤ) (tipo categoria : String)
    (monto : ℤ) (descripcion : String) : Bool × DB :=
  if tipo ∉ BotConstants.MOVEMENT_TYPES then (false, db)
  else if ¬(BotConstants.MIN_AMOUNT ≤ monto ∧ monto ≤ BotConstants.MAX_AMOUNT) then
    (false, db)
  else
    let descripcion1 :=
      if BotConstants.MAX_DESCRIPTION_LENGTH < descripcion.length then
        descripcion.take BotConstants.MAX_DESCRIPTION_LENGTH ++ "..."
      else descripcion
    let mov : Mov :=
      { id := db.next_mov_id, fecha := hoy, tipo := tipo, categoria := categoria,
        monto := monto, descripcion := pyStrip descripcion1,
        mes := hoy.month, anio := hoy.year, user_id := uid }
    let db1 := { db with movimientos := db.movimientos ++ [mov],
                         next_mov_id := db.next_mov_id + 1 }
    let db2 := (invalidarResumenMensual db1 uid hoy.month hoy.year).1
    let r3 := actualizarBalanceDiario db2 uid hoy
    let r4 := verificarAlertasLimites r3.1 r3.2 uid tipo hoy
    (r4.2 > 0, r4.1)

/-- `DatabaseManager.eliminar_movimiento`: look up the movement's
`(mes, año)`, delete the row when it belongs to the user, then invalidate
that monthly summary. -/
def eliminar_movimiento (db : DB) (movimiento_id : ℕ) (uid : ℤ) : Bool × DB :=
  match (db.movimientos.filter (fun m => m.id = movimiento_id ∧ m.user_id = uid)).head? with
  | none => (false, db)
  | some m =>
    let db1 := { db with movimientos :=
      db.movimientos.filter (fun x => ¬(x.id = movimiento_id ∧ x.user_id = uid)) }
    (true, (invalidarResumenMensual db1 uid m.mes m.anio).1)

/-- `DatabaseManager.agregar_suscripcion`: validate the charge day, amount
and name, compute the first charge date (next month with the day clamped
when `dia_cobro ≤ hoy.day`; the current month with the raw `dia_cobro`
otherwise — a `ValueError` from `date()` is caught and yields `False`),
then insert the subscription row. -/
def agregar_suscripcion (hoy : Date) (db : DB) (uid : ℤ) (nombre : String)
    (monto : ℤ) (categoria : String) (dia_cobro : ℕ) : Bool × DB :=
  if ¬(1 ≤ dia_cobro ∧ dia_cobro ≤ 31) then (false, db)
  else if ¬(BotConstants.MIN_AMOUNT ≤ monto ∧ monto ≤ BotConstants.MAX_AMOUNT) then
    (false, db)
  else if BotConstants.MAX_SUBSCRIPTION_NAME_LENGTH < (pyStrip nombre).length then (false, db)
  else
    let proximoCobro? : Option Date :=
      if dia_cobro ≤ hoy.day then
        if hoy.month = 12 then mkDate (hoy.year + 1) 1 (min dia_cobro 31)
        else mkDate hoy.year (hoy.month + 1)
               (min dia_cobro (daysInMonth hoy.year (hoy.month + 1)))
      else mkDate hoy.year hoy.month dia_cobro
    match proximoCobro? with
    | none => (false, db)
    | some proximoCobro =>
      (true, { db with
        suscripciones := db.suscripciones ++
          [{ id := db.next_sus_id, nombre := pyStrip nombre, monto := monto,
             categoria := categoria, dia_cobro := dia_cobro, activo := true,
             proximo_cobro := proximoCobro, user_id := uid }],
        next_sus_id := db.next_sus_id + 1 })

/-- The record `procesar_suscripcion` returns on success. -/
structure SubProcesada where
  nombre : String
  monto : ℤ
  categoria : String
  user_id : ℤ
  deriving DecidableEq, Repr

/-- `DatabaseManager.procesar_suscripcion`: for an existing active
subscription, insert one expense movement dated today with description
`"Suscripción: {nombre}"`, advance `proximo_cobro` to the month after
today with the day clamped to that month's length, invalidate today's
monthly summary, and return the processed record; otherwise return `none`
leaving the state unchanged (an exception rolls the transaction back). -/
def procesar_suscripcion (hoy : Date) (db : DB) (suscripcion_id : ℕ) :
    Option SubProcesada × DB :=
  match (db.suscripciones.filter (fun s => s.id = suscripcion_id ∧ s.activo)).head? with
  | none => (none, db)
  | some s =>
    let mov : Mov :=
      { id := db.next_mov_id, fecha := hoy, tipo := "gasto", categoria := s.categoria,
        monto := s.monto, descripcion := "Suscripción: " ++ s.nombre,
        mes := hoy.month, anio := hoy.year, user_id := s.user_id }
    let db1 := { db with movimientos := db.movimientos ++ [mov],
                         next_mov_id := db.next_mov_id + 1 }
    let proximoAnio := if hoy.month = 12 then hoy.year + 1 else hoy.year
    let proximoMes := if hoy.month = 12 then 1 else hoy.month + 1
    let diaAjustado := min s.dia_cobro (daysInMonth proximoAnio proximoMes)
    match mkDate proximoAnio proximoMes diaAjustado with
    | none => (none, db)
    | some proximoCobro =>
      let actualizada := fun (x : Suscripcion) =>
        if x.id = suscripcion_id then { x with proximo_cobro := proximoCobro } else x
      let db2 := { db1 with suscripciones := db1.suscripciones.map actualizada }
      (some { nombre := s.nombre, monto := s.monto, categoria := s.categoria,
              user_id := s.user_id },
       (invalidarResumenMensual db2 s.user_id hoy.month hoy.year).1)

/-- `DatabaseManager.agregar_deuda`. The guard
`tipo not in BotConstants.DEBT_TYPES` runs before the `try` block; since
`BotConstants` defines no such attribute, Python raises `AttributeError`
there and the exception propagates to the caller, modelled as `.error`. -/
def agregar_deuda (db : DB) (uid : ℤ) (nombre : String) (monto : ℤ)
    (tipo : String) (descripcion : String) : Except String Bool × DB :=
  match BotConstants.DEBT_TYPES with
  | none => (.error "AttributeError: type object BotConstants has no attribute DEBT_TYPES", db)
  | some debtTypes =>
    if tipo ∉ debtTypes then (.ok false, db)
    else
      match BotConstants.MAX_DEBT_NAME_LENGTH with
      | none => (.error "AttributeError: type object BotConstants has no attribute MAX_DEBT_NAME_LENGTH", db)
      | some maxLen =>
        if maxLen < (pyStrip nombre).length then (.ok false, db)
        else
          (.ok true, { db with deudas := db.deudas ++
            [{ id := 0, nombre := pyStrip nombre, monto := |monto|, tipo := tipo,
               activa := true, descripcion := pyStrip descripcion, user_id := uid }] })

/-- `DatabaseManager.agregar_alerta`. The guard
`tipo not in BotConstants.ALERT_TYPES` runs before the `try` block; since
`BotConstants` defines no such attribute, Python raises `AttributeError`
there and the exception propagates to the caller, modelled as `.error`. -/
def agregar_alerta (db : DB) (uid : ℤ) (tipo : String) (limite : ℤ) :
    Except String Bool × DB :=
  match BotConstants.ALERT_TYPES with
  | none => (.error "AttributeError: type object BotConstants has no attribute ALERT_TYPES", db)
  | some alertTypes =>
    if tipo ∉ alertTypes then (.ok false, db)
    else
      (.ok true, { db with alertas :=
        (db.alertas.filter (fun a => ¬(a.tipo = tipo ∧ a.user_id = uid))) ++
          [{ id := 0, tipo := tipo, limite := limite, activa := true, user_id := uid }] })

/-- Outcome of one scoped `ConnectionPool.get_connection` acquisition:
whether the enclosed error reached the caller, which connection-lifecycle
steps ran, and the pool contents afterwards. Connections are identified
by a number. -/
structure ScopeOutcome where
  errorSurfaced : Bool
  rolledBack : Bool
  committed : Bool
  returnedToPool : Bool
  closed : Bool
  pool : List ℕ
  deriving DecidableEq, Repr

/-- `ConnectionPool.get_connection` as a state transformer over the pool.
`workRaises` says whether the enclosed work raises; `commitRaises` whether
the `conn.commit()` in the `finally` block raises. The source pops a pooled
connection (or opens `freshId`), yields it; on error it rolls back and
re-raises; the `finally` block then commits and appends the connection back
to the pool when below `maxConnections`, closing it otherwise, and closes
it when the commit itself fails. -/
def getConnectionScoped (maxConnections : ℕ) (pool : List ℕ) (freshId : ℕ)
    (workRaises : Bool) (commitRaises : Bool) : ScopeOutcome :=
  let conn := pool.getLast?.getD freshId
  let poolAfterTake := pool.dropLast
  if commitRaises then
    { errorSurfaced := workRaises, rolledBack := workRaises, committed := false,
      returnedToPool := false, closed := true, pool := poolAfterTake }
  else if poolAfterTake.length < maxConnections then
    { errorSurfaced := workRaises, rolledBack := workRaises, committed := true,
      returnedToPool := true, closed := false, pool := poolAfterTake ++ [conn] }
  else
    { errorSurfaced := workRaises, rolledBack := workRaises, committed := true,
      returnedToPool := false, closed := true, pool := poolAfterTake }

/-- One conversation-state entry: the dialog step, plus the timestamp
written by `MessageHandlers._set_user_state`. -/
structure UserState where
  step : String
  timestamp : ℤ
  deriving DecidableEq, Repr

/-- `BotManager.user_states`: an insertion-ordered association list,
mirroring the insertion-order semantics of a Python dict. -/
abbrev StateMap :=
  List (ℤ × UserState)

/-- `BotManager.get_user_state`. -/
def get_user_state (m : StateMap) (uid : ℤ) : Option UserState :=
  (m.find? (fun e => e.1 = uid)).map (·.2)

/-- Python's `dict[key] = value` on an insertion-ordered association list:
update in place when the key exists, append at the end otherwise. -/
def dictSet (m : StateMap) (uid : ℤ) (s : UserState) : StateMap :=
  if (m.find? (fun e => e.1 = uid)).isSome then
    m.map (fun e => if e.1 = uid then (uid, s) else e)
  else
    m ++ [(uid, s)]

/-- `BotManager.set_user_state`: when the map has reached
`MAX_USER_STATES`, delete the entry of `next(iter(dict))` — the first key
in insertion order — then write the new state. -/
def set_user_state (maxStates : ℕ) (m : StateMap) (uid : ℤ) (s : UserState) :
    StateMap :=
  dictSet (if maxStates ≤ m.length then m.tail else m) uid s

/-- `BotManager.clear_user_state`. -/
def clear_user_state (m : StateMap) (uid : ℤ) : StateMap :=
  m.filter (fun e => ¬(e.1 = uid))

/-- `BotManager.cleanup_old_states`: drop every entry whose timestamp is
more than 7200 seconds (2 hours) behind `now`. -/
def cleanup_old_states (now : ℤ) (m : StateMap) : StateMap :=
  m.filter (fun e => ¬(7200 < now - e.2.timestamp))

/-- `BotManager.is_authorized`: exact match against the single configured
`AUTHORIZED_USER_ID`. -/
def is_authorized (authorizedUserId uid : ℤ) : Bool :=
  uid = authorizedUserId

/-- An inbound chat event: a text message (commands are texts starting
with a slash) or an inline callback. -/
inductive ChatEvent where
  | message (fromUser : ℤ) (text : String)
  | callback (fromUser : ℤ) (data : String)
  deriving DecidableEq, Repr

/-- The principal who issued the event. -/
def ChatEvent.user : ChatEvent → ℤ
  | .message uid _ => uid
  | .callback uid _ => uid

/-- The combined mutable state a handler can touch: the database and the
conversation-state map. -/
structure BotState where
  db : DB
  states : StateMap
  deriving DecidableEq

/-- The code each handler runs after its authorization check, one field per
registered handler (src/handlers/command_handlers.py,
callback_handlers.py, message_handlers.py). The bodies are kept abstract:
the authorization claim holds for every choice of bodies because the
source checks `is_authorized` before running any of them. -/
structure HandlerBodies where
  start : ℤ → BotState → BotState
  balance : ℤ → BotState → BotState
  gastoRapido : ℤ → String → BotState → BotState
  ingresoRapido : ℤ → String → BotState → BotState
  resumen : ℤ → BotState → BotState
  backup : ℤ → BotState → BotState
  textInput : ℤ → String → BotState → BotState
  callbackQuery : ℤ → String → BotState → BotState

/-- `CommandHandlers.handle_start`: authorization check, then the body
(an unauthorized caller only gets `_send_unauthorized_message`, which
writes nothing). -/
def handle_start (authId : ℤ) (B : HandlerBodies) (uid : ℤ) (st : BotState) : BotState :=
  if is_authorized authId uid then B.start uid st else st

/-- `CommandHandlers.handle_balance`: authorization check, then the body. -/
def handle_balance (authId : ℤ) (B : HandlerBodies) (uid : ℤ) (st : BotState) : BotState :=
  if is_authorized authId uid then B.balance uid st else st

/-- `CommandHandlers.handle_gasto_rapido`: authorization check, then the body. -/
def handle_gasto_rapido (authId : ℤ) (B : HandlerBodies) (uid : ℤ) (text : String)
    (st : BotState) : BotState :=
  if is_authorized authId uid then B.gastoRapido uid text st else st

/-- `CommandHandlers.handle_ingreso_rapido`: authorization check, then the body. -/
def handle_ingreso_rapido (authId : ℤ) (B : HandlerBodies) (uid : ℤ) (text : String)
    (st : BotState) : BotState :=
  if is_authorized authId uid then B.ingresoRapido uid text st else st

/-- `CommandHandlers.handle_resumen`: authorization check, then the body. -/
def handle_resumen (authId : ℤ) (B : HandlerBodies) (uid : ℤ) (st : BotState) : BotState :=
  if is_authorized authId uid then B.resumen uid st else st

/-- `CommandHandlers.handle_backup`: authorization check, then the body. -/
def handle_backup (authId : ℤ) (B : HandlerBodies) (uid : ℤ) (st : BotState) : BotState :=
  if is_authorized authId uid then B.backup uid st else st

/-- `CommandHandlers.handle_ayuda`: the source performs no authorization
check here, but the handler only replies with static help text and never
touches the database or the state map. -/
def handle_ayuda (_uid : ℤ) (st : BotState) : BotState :=
  st

/-- `MessageHandlers.handle_text_input`: authorization check (an
unauthorized caller returns immediately), then the state-machine body. -/
def handle_text_input (authId : ℤ) (B : HandlerBodies) (uid : ℤ) (text : String)
    (st : BotState) : BotState :=
  if is_authorized authId uid then B.textInput uid text st else st

/-- `CallbackHandlers.handle_callback_query`: authorization check (an
unauthorized caller only gets the `unauthorized` toast), then the body. -/
def handle_callback_query (authId : ℤ) (B : HandlerBodies) (uid : ℤ) (data : String)
    (st : BotState) : BotState :=
  if is_authorized authId uid then B.callbackQuery uid data st else st

/-- The telebot routing set up by `BotManager.register_handlers`: the seven
registered commands, then the catch-all text handler; callbacks go to the
single callback handler. -/
def dispatchEvent (authId : ℤ) (B : HandlerBodies) (e : ChatEvent)
    (st : BotState) : BotState :=
  match e with
  | .callback uid data => handle_callback_query authId B uid data st
  | .message uid text =>
    if text.startsWith "/start" then handle_start authId B uid st
    else if text.startsWith "/balance" then handle_balance authId B uid st
    else if text.startsWith "/gasto" then handle_gasto_rapido authId B uid text st
    else if text.startsWith "/ingreso" then handle_ingreso_rapido authId B uid text st
    else if text.startsWith "/resumen" then handle_resumen authId B uid st
    else if text.startsWith "/backup" then handle_backup authId B uid st
    else if text.startsWith "/ayuda" ∨ text.startsWith "/help" then handle_ayuda uid st
    else handle_text_input authId B uid text st

/-- `_invalidar_resumen_mensual` only touches the `resumen_mensual` table. -/
theorem invalidar_frame (db : DB) (uid : ℤ) (mes anio : ℕ) :
    ((invalidarResumenMensual db uid mes anio).1).movimientos = db.movimientos ∧
    ((invalidarResumenMensual db uid mes anio).1).alertas = db.alertas ∧
    ((invalidarResumenMensual db uid mes anio).1).notificaciones = db.notificaciones ∧
    ((invalidarResumenMensual db uid mes anio).1).balance_diario = db.balance_diario ∧
    ((invalidarResumenMensual db uid mes anio).1).suscripciones = db.suscripciones :=
  ⟨rfl, rfl, rfl, rfl, rfl⟩

/-- `_actualizar_balance_diario` only touches the `balance_diario` table. -/
theorem actualizar_frame (db : DB) (uid : ℤ) (fecha : Date) :
    ((actualizarBalanceDiario db uid fecha).1).movimientos = db.movimientos ∧
    ((actualizarBalanceDiario db uid fecha).1).alertas = db.alertas ∧
    ((actualizarBalanceDiario db uid fecha).1).notificaciones = db.notificaciones ∧
    ((actualizarBalanceDiario db uid fecha).1).resumen_mensual = db.resumen_mensual :=
  ⟨rfl, rfl, rfl, rfl⟩

/-- `_guardar_notificacion_alerta` only appends to the outbox. -/
theorem guardar_frame (db : DB) (uid : ℤ) (tipo : String) (limite gastado : ℤ) :
    (guardarNotificacionAlerta db uid tipo limite gastado).movimientos = db.movimientos ∧
    (guardarNotificacionAlerta db uid tipo limite gastado).alertas = db.alertas ∧
    (guardarNotificacionAlerta db uid tipo limite gastado).balance_diario = db.balance_diario ∧
    (guardarNotificacionAlerta db uid tipo limite gastado).resumen_mensual = db.resumen_mensual :=
  ⟨rfl, rfl, rfl, rfl⟩

/-- The daily-alert block only appends to the outbox. -/
theorem verificarDiaria_frame (db : DB) (uid : ℤ) (hoy : Date) :
    (verificarAlertaDiaria db uid hoy).movimientos = db.movimientos ∧
    (verificarAlertaDiaria db uid hoy).alertas = db.alertas ∧
    (verificarAlertaDiaria db uid hoy).balance_diario = db.balance_diario ∧
    (verificarAlertaDiaria db uid hoy).resumen_mensual = db.resumen_mensual := by
  unfold verificarAlertaDiaria
  cases alertaActiva db uid "diario" with
  | none => exact ⟨rfl, rfl, rfl, rfl⟩
  | some a =>
    dsimp only
    split
    · exact ⟨rfl, rfl, rfl, rfl⟩
    · exact ⟨rfl, rfl, rfl, rfl⟩

/-- The monthly-alert block only appends to the outbox. -/
theorem verificarMensual_frame (db : DB) (uid : ℤ) (hoy : Date) :
    ((verificarAlertaMensual db uid hoy).1).movimientos = db.movimientos ∧
    ((verificarAlertaMensual db uid hoy).1).alertas = db.alertas ∧
    ((verificarAlertaMensual db uid hoy).1).balance_diario = db.balance_diario ∧
    ((verificarAlertaMensual db uid hoy).1).resumen_mensual = db.resumen_mensual := by
  unfold verificarAlertaMensual
  cases alertaActiva db uid "mensual" with
  | none => exact ⟨rfl, rfl, rfl, rfl⟩
  | some a =>
    dsimp only
    split
    · exact ⟨rfl, rfl, rfl, rfl⟩
    · exact ⟨rfl, rfl, rfl, rfl⟩

/-- `_verificar_alertas_limites` only appends to the outbox: every other
table is untouched. -/
theorem verificar_frame (db : DB) (rc : ℤ) (uid : ℤ) (tipoMovimiento : String)
    (hoy : Date) :
    ((verificarAlertasLimites db rc uid tipoMovimiento hoy).1).movimientos = db.movimientos ∧
    ((verificarAlertasLimites db rc uid tipoMovimiento hoy).1).alertas = db.alertas ∧
    ((verificarAlertasLimites db rc uid tipoMovimiento hoy).1).balance_diario = db.balance_diario ∧
    ((verificarAlertasLimites db rc uid tipoMovimiento hoy).1).resumen_mensual = db.resumen_mensual := by
  unfold verificarAlertasLimites
  split
  · exact ⟨rfl, rfl, rfl, rfl⟩
  · obtain ⟨h1, h2, h3, h4⟩ := verificarMensual_frame (verificarAlertaDiaria db uid hoy) uid hoy
    obtain ⟨g1, g2, g3, g4⟩ := verificarDiaria_frame db uid hoy
    exact ⟨h1.trans g1, h2.trans g2, h3.trans g3, h4.trans g4⟩

/-- `alertaActiva` depends only on the `alertas` table. -/
theorem alertaActiva_eq_of (db1 db2 : DB) (h : db1.alertas = db2.alertas)
    (uid : ℤ) (tipo : String) :
    alertaActiva db1 uid tipo = alertaActiva db2 uid tipo := by
  unfold alertaActiva
  rw [h]

/-- The outbox rows appended by the daily-alert block. -/
theorem verificarDiaria_notifs (db : DB) (uid : ℤ) (hoy : Date) :
    (verificarAlertaDiaria db uid hoy).notificaciones =
      db.notificaciones ++
        (match alertaActiva db uid "diario" with
         | some a =>
           if a.limite < sumTipoFecha db.movimientos uid "gasto" hoy then
             [notifAlerta uid "diario" a.limite (sumTipoFecha db.movimientos uid "gasto" hoy)]
           else []
         | none => []) := by
  unfold verificarAlertaDiaria
  cases alertaActiva db uid "diario" with
  | none => simp
  | some a =>
    dsimp only
    split
    · rfl
    · simp

/-- The outbox rows appended by the monthly-alert block. -/
theorem verificarMensual_notifs (db : DB) (uid : ℤ) (hoy : Date) :
    ((verificarAlertaMensual db uid hoy).1).notificaciones =
      db.notificaciones ++
        (match alertaActiva db uid "mensual" with
         | some a =>
           if a.limite < sumTipoMes db.movimientos uid "gasto" hoy.month hoy.year then
             [notifAlerta uid "mensual" a.limite
               (sumTipoMes db.movimientos uid "gasto" hoy.month hoy.year)]
           else []
         | none => []) := by
  unfold verificarAlertaMensual
  cases alertaActiva db uid "mensual" with
  | none => simp
  | some a =>
    dsimp only
    split
    · rfl
    · simp

/-- Derived-cache coherence of the monthly summary for one `(user, mes, año)`
key: any row with that key has totals equal to the re-aggregation of
the underlying movements (so the row is absent or equal to it). -/
def resumenCoherente (db : DB) (uid : ℤ) (mes anio : ℕ) : Prop :=
  ∀ r ∈ db.resumen_mensual, (r.user_id = uid ∧ r.mes = mes ∧ r.anio = anio) →
    (r.total_ingresos = sumTipoMes db.movimientos uid "ingreso" mes anio ∧
     r.total_gastos = sumTipoMes db.movimientos uid "gasto" mes anio ∧
     r.total_ahorros = sumTipoMes db.movimientos uid "ahorro" mes anio)

instance (db : DB) (uid : ℤ) (mes anio : ℕ) :
    Decidable (resumenCoherente db uid mes anio) := by
  unfold resumenCoherente
  infer_instance

/-- Derived-cache coherence of the daily summary for one `(user, fecha)`
key: any row with that key has per-kind totals equal to the re-aggregation
of the underlying movements of that date. -/
def balanceDiarioCoherente (db : DB) (uid : ℤ) (fecha : Date) : Prop :=
  ∀ r ∈ db.balance_diario, (r.user_id = uid ∧ r.fecha = fecha) →
    (r.ingresos = sumTipoFecha db.movimientos uid "ingreso" fecha ∧
     r.gastos = sumTipoFecha db.movimientos uid "gasto" fecha ∧
     r.ahorros = sumTipoFecha db.movimientos uid "ahorro" fecha)

instance (db : DB) (uid : ℤ) (fecha : Date) :
    Decidable (balanceDiarioCoherente db uid fecha) := by
  unfold balanceDiarioCoherente
  infer_instance

/-- No row with the invalidated `(user, mes, año)` key survives
`_invalidar_resumen_mensual`. -/
theorem invalidar_no_key (db : DB) (uid : ℤ) (mes anio : ℕ) :
    ∀ r ∈ ((invalidarResumenMensual db uid mes anio).1).resumen_mensual,
      ¬(r.user_id = uid ∧ r.mes = mes ∧ r.anio = anio) := by
  intro r hr
  unfold invalidarResumenMensual at hr
  dsimp only at hr
  have h := List.of_mem_filter hr
  simp only [decide_not, Bool.not_eq_true', decide_eq_false_iff_not] at h
  exact h

/-- Every month has at least one day (in fact at least 28). -/
theorem daysInMonth_pos (y m : ℕ) : 1 ≤ daysInMonth y m := by
  unfold daysInMonth
  split
  · split <;> omega
  · split <;> omega

/-- The clamped next-month date used by `procesar_suscripcion` (and the
next-month branch of `agregar_suscripcion`) is always a valid date. -/
theorem mkDate_next_month (hoy : Date) (hv : hoy.Valid) (dia : ℕ) (hdia : 1 ≤ dia) :
    mkDate (if hoy.month = 12 then hoy.year + 1 else hoy.year)
      (if hoy.month = 12 then 1 else hoy.month + 1)
      (min dia (daysInMonth (if hoy.month = 12 then hoy.year + 1 else hoy.year)
        (if hoy.month = 12 then 1 else hoy.month + 1))) =
      some ⟨if hoy.month = 12 then hoy.year + 1 else hoy.year,
            if hoy.month = 12 then 1 else hoy.month + 1,
            min dia (daysInMonth (if hoy.month = 12 then hoy.year + 1 else hoy.year)
              (if hoy.month = 12 then 1 else hoy.month + 1))⟩ := by
  obtain ⟨h1, h2, h3, h4⟩ := hv
  have hpos := daysInMonth_pos (if hoy.month = 12 then hoy.year + 1 else hoy.year)
    (if hoy.month = 12 then 1 else hoy.month + 1)
  have hcond : 1 ≤ (if hoy.month = 12 then 1 else hoy.month + 1) ∧
      (if hoy.month = 12 then 1 else hoy.month + 1) ≤ 12 ∧
      1 ≤ min dia (daysInMonth (if hoy.month = 12 then hoy.year + 1 else hoy.year)
        (if hoy.month = 12 then 1 else hoy.month + 1)) ∧
      min dia (daysInMonth (if hoy.month = 12 then hoy.year + 1 else hoy.year)
          (if hoy.month = 12 then 1 else hoy.month + 1)) ≤
        daysInMonth (if hoy.month = 12 then hoy.year + 1 else hoy.year)
          (if hoy.month = 12 then 1 else hoy.month + 1) := by
    refine ⟨?_, ?_, ?_, min_le_right _ _⟩
    · split <;> omega
    · split <;> omega
    · omega
  unfold mkDate
  rw [if_pos hcond]

/-- Any date in the month after `hoy` is strictly later than `hoy`. -/
theorem lt_next_month (hoy : Date) (d : ℕ) :
    Date.lt hoy ⟨if hoy.month = 12 then hoy.year + 1 else hoy.year,
                 if hoy.month = 12 then 1 else hoy.month + 1, d⟩ = true := by
  unfold Date.lt
  simp only [decide_eq_true_eq]
  by_cases h12 : hoy.month = 12
  · rw [if_pos h12, if_pos h12]
    left
    omega
  · rw [if_neg h12, if_neg h12]
    right
    left
    exact ⟨rfl, by omega⟩

/-- Splitting the signed-amount sum of one user's movements by tipo. -/
theorem signedMonto_sum_split (ms : List Mov) (uid : ℤ) :
    ((ms.filter (fun m => m.user_id = uid)).map signedMonto).sum =
      sumMonto (ms.filter (fun m => m.user_id = uid ∧ m.tipo = "ingreso"))
        - sumMonto (ms.filter (fun m => m.user_id = uid ∧ m.tipo = "gasto"))
        - sumMonto (ms.filter (fun m => m.user_id = uid ∧ m.tipo = "ahorro")) := by
  induction ms with
  | nil => simp [sumMonto]
  | cons m t ih =>
    simp only [List.filter_cons, decide_eq_true_eq]
    by_cases h1 : m.user_id = uid
    · by_cases h2 : m.tipo = "ingreso"
      · simp [h1, h2, sumMonto, signedMonto, ih]; ring
      · by_cases h3 : m.tipo = "gasto"
        · simp [h1, h2, h3, sumMonto, signedMonto, ih]; ring
        · by_cases h4 : m.tipo = "ahorro"
          · simp [h1, h2, h3, h4, sumMonto, signedMonto, ih]; ring
          · simp [h1, h2, h3, h4, sumMonto, signedMonto, ih]
    · simp [h1, ih]

/-- C1: for every principal and every state of the movements table,
`obtener_balance_actual` returns the initial balance plus the summed
income amounts minus the summed expense amounts minus the summed saving
amounts of that user's movements; savings decrement the balance without
being counted among expenses. -/
theorem obtener_balance_actual_identity (db : DB) (uid : ℤ) :
    obtener_balance_actual db uid =
      balanceInicial db uid
        + sumMonto (db.movimientos.filter (fun m => m.user_id = uid ∧ m.tipo = "ingreso"))
        - sumMonto (db.movimientos.filter (fun m => m.user_id = uid ∧ m.tipo = "gasto"))
        - sumMonto (db.movimientos.filter (fun m => m.user_id = uid ∧ m.tipo = "ahorro")) := by
  unfold obtener_balance_actual
  rw [signedMonto_sum_split]
  ring

/-- C2: an inbound chat event (command, free text, or inline callback)
issued by a principal other than the configured `AUTHORIZED_USER_ID` is
dropped by the authorization check of every registered handler, so neither
the database (ledger tables and notification outbox included) nor the
conversation-state map changes, whatever the handler bodies do for
authorized callers. -/
theorem unauthorized_event_no_write (authId : ℤ) (B : HandlerBodies)
    (e : ChatEvent) (st : BotState) (h : ¬(e.user = authId)) :
    dispatchEvent authId B e st = st := by
  cases e with
  | callback uid data =>
    simp only [ChatEvent.user] at h
    simp [dispatchEvent, handle_callback_query, is_authorized, h]
  | message uid text =>
    simp only [ChatEvent.user] at h
    simp [dispatchEvent, handle_start, handle_balance, handle_gasto_rapido,
      handle_ingreso_rapido, handle_resumen, handle_backup, handle_ayuda,
      handle_text_input, is_authorized, h]

/-- Sample handler bodies that do write for authorized callers, used only
to witness the authorization theorem at a concrete input. -/
def sampleBodies : HandlerBodies where
  start uid st := { st with states := clear_user_state st.states uid }
  balance _ st := st
  gastoRapido uid text st :=
    { st with db := (agregar_movimiento ⟨2024, 3, 15⟩ st.db uid "gasto" "Otros" 5000 text).2 }
  ingresoRapido uid text st :=
    { st with db := (agregar_movimiento ⟨2024, 3, 15⟩ st.db uid "ingreso" "Otros" 5000 text).2 }
  resumen _ st := st
  backup _ st := st
  textInput uid _ st :=
    { st with states := set_user_state 100 st.states uid ⟨"balance_inicial", 0⟩ }
  callbackQuery uid _ st :=
    { st with states := set_user_state 100 st.states uid ⟨"monto_gasto", 0⟩ }

/-- Witness for the authorization theorem: user 7 sends `/gasto 5000` to a
bot configured for user 42, and the state is untouched. -/
theorem unauthorized_event_no_write_witness :
    ¬((ChatEvent.message 7 "/gasto 5000").user = 42) ∧
      dispatchEvent 42 sampleBodies (ChatEvent.message 7 "/gasto 5000")
        ⟨DB.empty, []⟩ = ⟨DB.empty, []⟩ :=
  ⟨by decide,
   unauthorized_event_no_write 42 sampleBodies (ChatEvent.message 7 "/gasto 5000")
     ⟨DB.empty, []⟩ (by decide)⟩

/-- `dictSet` grows the map by at most one entry. -/
theorem dictSet_length_le (m : StateMap) (uid : ℤ) (s : UserState) :
    (dictSet m uid s).length ≤ m.length + 1 := by
  unfold dictSet
  split
  · rw [List.length_map]
    omega
  · rw [List.length_append]
    simp

/-- C9: the conversation-state store keeps at most `MAX_USER_STATES`
entries across `set_user_state`; an insert of an absent key at capacity
evicts exactly the first entry in insertion order (FIFO), after which
`get_user_state` on the evicted key returns `none`; and
`cleanup_old_states` keeps exactly the entries at most `STATE_TTL`
(7200 s) old. -/
theorem conversation_state_store_spec (maxStates : ℕ) (m : StateMap) (uid : ℤ)
    (s : UserState) (now : ℤ) (hmax : 1 ≤ maxStates) (hlen : m.length ≤ maxStates) :
    (set_user_state maxStates m uid s).length ≤ maxStates ∧
    (∀ k0 s0 rest, m = (k0, s0) :: rest → m.length = maxStates →
      get_user_state m uid = none →
      rest.find? (fun e => e.1 = k0) = none →
      set_user_state maxStates m uid s = rest ++ [(uid, s)] ∧
      get_user_state (set_user_state maxStates m uid s) k0 = none) ∧
    (∀ k st', (k, st') ∈ cleanup_old_states now m ↔
      ((k, st') ∈ m ∧ now - st'.timestamp ≤ 7200)) := by
  refine ⟨?_, ?_, ?_⟩
  · unfold set_user_state
    split
    · rename_i hc
      refine le_trans (dictSet_length_le _ _ _) ?_
      rw [List.length_tail]
      omega
    · rename_i hc
      refine le_trans (dictSet_length_le _ _ _) ?_
      omega
  · intro k0 s0 rest hm hcap hget hk0
    subst hm
    have hnotin : ∀ e ∈ (k0, s0) :: rest, ¬(e.1 = uid) := by
      intro e he
      have := List.find?_eq_none.mp ((Option.map_eq_none).mp hget) e he
      simpa using this
    have hcap' : maxStates ≤ ((k0, s0) :: rest).length := le_of_eq hcap.symm
    have htail : (if maxStates ≤ ((k0, s0) :: rest).length then ((k0, s0) :: rest).tail
        else ((k0, s0) :: rest)) = rest := by
      rw [if_pos hcap']
      rfl
    have hrestfind : rest.find? (fun e => decide (e.1 = uid)) = none := by
      refine List.find?_eq_none.mpr ?_
      intro e he
      simpa using hnotin e (List.mem_cons_of_mem _ he)
    have hset : set_user_state maxStates ((k0, s0) :: rest) uid s = rest ++ [(uid, s)] := by
      unfold set_user_state
      rw [htail]
      unfold dictSet
      rw [hrestfind]
      rfl
    refine ⟨hset, ?_⟩
    rw [hset]
    unfold get_user_state
    rw [List.find?_eq_none.mpr ?_]
    · rfl
    · intro e he
      rcases List.mem_append.mp he with he | he
      · have := List.find?_eq_none.mp hk0 e he
        simpa using this
      · have heq : e = (uid, s) := by simpa using he
        subst heq
        have := hnotin (k0, s0) (List.mem_cons_self _ _)
        simp only [decide_eq_true_eq]
        intro hbad
        exact this (by simp [hbad])
  · intro k st'
    simp [cleanup_old_states, List.mem_filter, not_lt]

/-- Witness for the state-store theorem: a store of capacity 2 holding
users 1 and 2; user 3's insert evicts user 1. -/
theorem conversation_state_store_spec_witness :
    (1 ≤ 2 ∧ ([(1, ⟨"a", 0⟩), (2, ⟨"b", 0⟩)] : StateMap).length ≤ 2) ∧
    ((set_user_state 2 [(1, ⟨"a", 0⟩), (2, ⟨"b", 0⟩)] 3 ⟨"c", 100⟩).length ≤ 2 ∧
    (∀ k0 s0 rest, ([(1, ⟨"a", 0⟩), (2, ⟨"b", 0⟩)] : StateMap) = (k0, s0) :: rest →
      ([(1, ⟨"a", 0⟩), (2, ⟨"b", 0⟩)] : StateMap).length = 2 →
      get_user_state [(1, ⟨"a", 0⟩), (2, ⟨"b", 0⟩)] 3 = none →
      rest.find? (fun e => e.1 = k0) = none →
      set_user_state 2 [(1, ⟨"a", 0⟩), (2, ⟨"b", 0⟩)] 3 ⟨"c", 100⟩ = rest ++ [(3, ⟨"c", 100⟩)] ∧
      get_user_state (set_user_state 2 [(1, ⟨"a", 0⟩), (2, ⟨"b", 0⟩)] 3 ⟨"c", 100⟩) k0 = none) ∧
    (∀ k st', (k, st') ∈ cleanup_old_states 10000 [(1, ⟨"a", 0⟩), (2, ⟨"b", 0⟩)] ↔
      ((k, st') ∈ ([(1, ⟨"a", 0⟩), (2, ⟨"b", 0⟩)] : StateMap) ∧
        10000 - st'.timestamp ≤ 7200))) :=
  ⟨⟨by decide, by decide⟩,
   conversation_state_store_spec 2 [(1, ⟨"a", 0⟩), (2, ⟨"b", 0⟩)] 3 ⟨"c", 100⟩ 10000
     (by decide) (by decide)⟩

/-- C8: `agregar_deuda` and `agregar_alerta` never return a boolean: their
type-guard lines read `BotConstants.DEBT_TYPES` respectively
`BotConstants.ALERT_TYPES`, attributes that are defined nowhere, so both
calls raise `AttributeError` before entering their `try` blocks and the
exception propagates to the caller (the database is left unchanged). -/
theorem agregar_deuda_alerta_raises (db : DB) (uid : ℤ) (nombre : String)
    (monto : ℤ) (tipo descripcion tipoAlerta : String) (limite : ℤ) :
    agregar_deuda db uid nombre monto tipo descripcion =
      (.error "AttributeError: type object BotConstants has no attribute DEBT_TYPES", db) ∧
    agregar_alerta db uid tipoAlerta limite =
      (.error "AttributeError: type object BotConstants has no attribute ALERT_TYPES", db) :=
  ⟨rfl, rfl⟩

/-- Counterexample to C10 as stated: the enclosed work raises on a freshly
opened connection, and the `finally` block of `get_connection` commits and
returns the connection to the pool instead of discarding it. -/
theorem get_connection_error_counterexample :
    (getConnectionScoped 5 [] 7 true false).errorSurfaced = true ∧
    (getConnectionScoped 5 [] 7 true false).rolledBack = true ∧
    (getConnectionScoped 5 [] 7 true false).returnedToPool = true ∧
    (getConnectionScoped 5 [] 7 true false).closed = false ∧
    (getConnectionScoped 5 [] 7 true false).pool = [7] := by
  refine ⟨rfl, rfl, rfl, rfl, rfl⟩

/-- C10 (amended): when the enclosed work raises during a scoped
acquisition, a rollback is attempted and the error is surfaced to the
caller, but the connection is not discarded: the `finally` block commits
it and returns it to the pool whenever the commit succeeds and the pool is
below its cap, closing it only when the commit fails or the pool is full. -/
theorem get_connection_error_handling (maxConnections : ℕ) (pool : List ℕ)
    (freshId : ℕ) (workRaises commitRaises : Bool) (hw : workRaises = true) :
    (getConnectionScoped maxConnections pool freshId workRaises commitRaises).errorSurfaced = true ∧
    (getConnectionScoped maxConnections pool freshId workRaises commitRaises).rolledBack = true ∧
    (commitRaises = false → pool.dropLast.length < maxConnections →
      (getConnectionScoped maxConnections pool freshId workRaises commitRaises).returnedToPool = true ∧
      (getConnectionScoped maxConnections pool freshId workRaises commitRaises).closed = false) ∧
    (commitRaises = true ∨ maxConnections ≤ pool.dropLast.length →
      (getConnectionScoped maxConnections pool freshId workRaises commitRaises).returnedToPool = false ∧
      (getConnectionScoped maxConnections pool freshId workRaises commitRaises).closed = true) := by
  subst hw
  cases commitRaises with
  | true =>
    refine ⟨?_, ?_, ?_, ?_⟩
    · simp [getConnectionScoped]
    · simp [getConnectionScoped]
    · intro hc
      exact absurd hc (by simp)
    · intro _
      constructor
      · simp [getConnectionScoped]
      · simp [getConnectionScoped]
  | false =>
    by_cases hlen : pool.dropLast.length < maxConnections
    · have hite : getConnectionScoped maxConnections pool freshId true false =
        { errorSurfaced := true, rolledBack := true, committed := true,
          returnedToPool := true, closed := false,
          pool := pool.dropLast ++ [pool.getLast?.getD freshId] } := by
        unfold getConnectionScoped
        rw [if_neg Bool.false_ne_true, if_pos hlen]
      refine ⟨?_, ?_, fun _ _ => ⟨?_, ?_⟩, ?_⟩
      · rw [hite]
      · rw [hite]
      · rw [hite]
      · rw [hite]
      · intro hc
        rcases hc with hc | hc
        · exact absurd hc (by simp)
        · omega
    · have hite : getConnectionScoped maxConnections pool freshId true false =
        { errorSurfaced := true, rolledBack := true, committed := true,
          returnedToPool := false, closed := true, pool := pool.dropLast } := by
        unfold getConnectionScoped
        rw [if_neg Bool.false_ne_true, if_neg hlen]
      refine ⟨?_, ?_, fun _ hc => ?_, fun _ => ⟨?_, ?_⟩⟩
      · rw [hite]
      · rw [hite]
      · exact absurd hc hlen
      · rw [hite]
      · rw [hite]

/-- Witness for the pool failure theorem: work raises on the only pooled
connection of a pool capped at 5. -/
theorem get_connection_error_handling_witness :
    (true = true) ∧
    ((getConnectionScoped 5 [3] 7 true false).errorSurfaced = true ∧
    (getConnectionScoped 5 [3] 7 true false).rolledBack = true ∧
    (false = false → ([3] : List ℕ).dropLast.length < 5 →
      (getConnectionScoped 5 [3] 7 true false).returnedToPool = true ∧
      (getConnectionScoped 5 [3] 7 true false).closed = false) ∧
    (false = true ∨ 5 ≤ ([3] : List ℕ).dropLast.length →
      (getConnectionScoped 5 [3] 7 true false).returnedToPool = false ∧
      (getConnectionScoped 5 [3] 7 true false).closed = true)) :=
  ⟨rfl, get_connection_error_handling 5 [3] 7 true false rfl⟩

/-- Counterexample to C7 as stated: the amount 10,000,000.00 (1000000000
cents) exceeds the claimed maximum 9,999,999.99 (999999999 cents), yet
`agregar_movimiento` inserts the movement, because the source constant
`MAX_AMOUNT` is 999,999,999.99. -/
theorem agregar_movimiento_max_counterexample :
    ((999999999 : ℤ) < 1000000000) ∧
    (agregar_movimiento ⟨2024, 3, 15⟩ DB.empty 42 "gasto" "Comida" 1000000000 "").2.movimientos =
      [{ id := 1, fecha := ⟨2024, 3, 15⟩, tipo := "gasto", categoria := "Comida",
         monto := 1000000000, descripcion := "", mes := 3, anio := 2024, user_id := 42 }] := by
  exact ⟨by norm_num, by decide⟩

/-- C7 (amended): `agregar_movimiento` accepts an amount exactly when it
lies in `[MIN_AMOUNT, MAX_AMOUNT] = [0.01, 999999999.99]`: with a valid
kind, an in-range amount is inserted as a movement row (with today's date
and derived month/year), and an out-of-range amount is rejected with the
state unchanged. -/
theorem agregar_movimiento_amount_range (hoy : Date) (db : DB) (uid : ℤ)
    (tipo categoria : String) (monto : ℤ) (descripcion : String)
    (htipo : tipo ∈ BotConstants.MOVEMENT_TYPES) :
    (BotConstants.MIN_AMOUNT ≤ monto ∧ monto ≤ BotConstants.MAX_AMOUNT →
      (agregar_movimiento hoy db uid tipo categoria monto descripcion).2.movimientos =
        db.movimientos ++
          [{ id := db.next_mov_id, fecha := hoy, tipo := tipo, categoria := categoria,
             monto := monto,
             descripcion := pyStrip (if BotConstants.MAX_DESCRIPTION_LENGTH < descripcion.length then
                 descripcion.take BotConstants.MAX_DESCRIPTION_LENGTH ++ "..."
               else descripcion),
             mes := hoy.month, anio := hoy.year, user_id := uid }]) ∧
    (¬(BotConstants.MIN_AMOUNT ≤ monto ∧ monto ≤ BotConstants.MAX_AMOUNT) →
      agregar_movimiento hoy db uid tipo categoria monto descripcion = (false, db)) := by
  constructor
  · intro hm
    unfold agregar_movimiento
    rw [if_neg (by simp [htipo]), if_neg (not_not_intro hm)]
    dsimp only
    rw [(verificar_frame _ _ _ _ _).1, (actualizar_frame _ _ _).1.trans (invalidar_frame _ _ _ _).1]
  · intro hm
    unfold agregar_movimiento
    rw [if_neg (by simp [htipo]), if_pos hm]

/-- For an expense, `_verificar_alertas_limites` appends exactly the daily
firing followed by the monthly firing, each present exactly when the
period's expense sum strictly exceeds the respective active alert limit. -/
theorem verificar_gasto_notifs (db : DB) (rc : ℤ) (uid : ℤ) (hoy : Date) :
    ((verificarAlertasLimites db rc uid "gasto" hoy).1).notificaciones =
      db.notificaciones ++
        (match alertaActiva db uid "diario" with
         | some a =>
           if a.limite < sumTipoFecha db.movimientos uid "gasto" hoy then
             [notifAlerta uid "diario" a.limite (sumTipoFecha db.movimientos uid "gasto" hoy)]
           else []
         | none => []) ++
        (match alertaActiva db uid "mensual" with
         | some a =>
           if a.limite < sumTipoMes db.movimientos uid "gasto" hoy.month hoy.year then
             [notifAlerta uid "mensual" a.limite
               (sumTipoMes db.movimientos uid "gasto" hoy.month hoy.year)]
           else []
         | none => []) := by
  unfold verificarAlertasLimites
  rw [if_neg (not_not_intro rfl)]
  rw [verificarMensual_notifs, verificarDiaria_notifs,
    alertaActiva_eq_of _ db (verificarDiaria_frame db uid hoy).2.1,
    (verificarDiaria_frame db uid hoy).1, List.append_assoc]

/-- C4: after `agregar_movimiento` inserts an expense, the same transaction
appends, for each of the daily and monthly scopes with an active alert,
exactly one unprocessed `alerta_limite` outbox row — with payload limit,
spent and excess `spent - limit` — precisely when the scope's expense sum
(over the table including the new movement) strictly exceeds that alert's
limit; income and saving movements never enqueue an alert row. -/
theorem alert_evaluation_on_expense (hoy : Date) (db : DB) (uid : ℤ)
    (categoria : String) (monto : ℤ) (descripcion : String)
    (hm : BotConstants.MIN_AMOUNT ≤ monto ∧ monto ≤ BotConstants.MAX_AMOUNT) :
    ((agregar_movimiento hoy db uid "gasto" categoria monto descripcion).2.notificaciones =
      db.notificaciones ++
        (match alertaActiva db uid "diario" with
         | some a =>
           if a.limite < sumTipoFecha
               (agregar_movimiento hoy db uid "gasto" categoria monto descripcion).2.movimientos
               uid "gasto" hoy then
             [notifAlerta uid "diario" a.limite
               (sumTipoFecha
                 (agregar_movimiento hoy db uid "gasto" categoria monto descripcion).2.movimientos
                 uid "gasto" hoy)]
           else []
         | none => []) ++
        (match alertaActiva db uid "mensual" with
         | some a =>
           if a.limite < sumTipoMes
               (agregar_movimiento hoy db uid "gasto" categoria monto descripcion).2.movimientos
               uid "gasto" hoy.month hoy.year then
             [notifAlerta uid "mensual" a.limite
               (sumTipoMes
                 (agregar_movimiento hoy db uid "gasto" categoria monto descripcion).2.movimientos
                 uid "gasto" hoy.month hoy.year)]
           else []
         | none => [])) ∧
    (∀ tipo, tipo = "ingreso" ∨ tipo = "ahorro" →
      (agregar_movimiento hoy db uid tipo categoria monto descripcion).2.notificaciones =
        db.notificaciones) := by
  constructor
  · unfold agregar_movimiento
    rw [if_neg (not_not_intro (by decide)), if_neg (not_not_intro hm)]
    dsimp only
    rw [verificar_gasto_notifs, (verificar_frame _ _ _ _ _).1]
    rfl
  · intro tipo htipo
    have hmem : tipo ∈ BotConstants.MOVEMENT_TYPES := by
      rcases htipo with h | h <;> subst h <;> decide
    have hng : ¬(tipo = "gasto") := by
      rcases htipo with h | h <;> subst h <;> decide
    unfold agregar_movimiento
    rw [if_neg (not_not_intro hmem), if_neg (not_not_intro hm)]
    dsimp only
    unfold verificarAlertasLimites
    rw [if_pos hng]
    rfl

/-- Witness for the alert-evaluation theorem: the spec scenario — an
active daily alert with limit 10000.00, 7000.00 already spent today, and a
new expense of 4000.00 (all in cents) yields one daily `alerta_limite` row
with spent 11000.00 and excess 1000.00. -/
theorem alert_evaluation_on_expense_witness :
    (agregar_movimiento ⟨2024, 3, 15⟩
        { DB.empty with
            alertas := [{ id := 1, tipo := "diario", limite := 1000000, activa := true,
                          user_id := 42 }],
            movimientos := [{ id := 1, fecha := ⟨2024, 3, 15⟩, tipo := "gasto",
                              categoria := "Comida", monto := 700000, descripcion := "",
                              mes := 3, anio := 2024, user_id := 42 }],
            next_mov_id := 2 }
        42 "gasto" "Comida" 400000 "").2.notificaciones =
      [notifAlerta 42 "diario" 1000000 1100000] ∧
    (notifAlerta 42 "diario" 1000000 1100000).datos.exceso = 100000 := by
  have h := alert_evaluation_on_expense ⟨2024, 3, 15⟩
    { DB.empty with
        alertas := [{ id := 1, tipo := "diario", limite := 1000000, activa := true,
                      user_id := 42 }],
        movimientos := [{ id := 1, fecha := ⟨2024, 3, 15⟩, tipo := "gasto",
                          categoria := "Comida", monto := 700000, descripcion := "",
                          mes := 3, anio := 2024, user_id := 42 }],
        next_mov_id := 2 }
    42 "Comida" 400000 "" (by decide)
  refine ⟨?_, by decide⟩
  rw [h.1]
  decide

/-- Witness for the amount-range theorem at the boundary amount
`MIN_AMOUNT` (1 cent), which is accepted. -/
theorem agregar_movimiento_amount_range_witness :
    ("gasto" ∈ BotConstants.MOVEMENT_TYPES) ∧
    ((BotConstants.MIN_AMOUNT ≤ 1 ∧ (1 : ℤ) ≤ BotConstants.MAX_AMOUNT →
      (agregar_movimiento ⟨2024, 3, 15⟩ DB.empty 42 "gasto" "Comida" 1 "x").2.movimientos =
        DB.empty.movimientos ++
          [{ id := DB.empty.next_mov_id, fecha := ⟨2024, 3, 15⟩, tipo := "gasto",
             categoria := "Comida", monto := 1,
             descripcion := pyStrip (if BotConstants.MAX_DESCRIPTION_LENGTH < "x".length then
                 "x".take BotConstants.MAX_DESCRIPTION_LENGTH ++ "..."
               else "x"),
             mes := 3, anio := 2024, user_id := 42 }]) ∧
    (¬(BotConstants.MIN_AMOUNT ≤ 1 ∧ (1 : ℤ) ≤ BotConstants.MAX_AMOUNT) →
      agregar_movimiento ⟨2024, 3, 15⟩ DB.empty 42 "gasto" "Comida" 1 "x" =
        (false, DB.empty))) :=
  ⟨by decide,
   agregar_movimiento_amount_range ⟨2024, 3, 15⟩ DB.empty 42 "gasto" "Comida" 1 "x"
     (by decide)⟩

/-- Counterexample to C3 as stated: deleting today's only expense leaves
the stale `balance_diario` row in place (the code never refreshes the
daily cache on delete), so the daily summary is neither absent nor equal
to the re-aggregation. -/
theorem derived_summaries_counterexample :
    (eliminar_movimiento
      { DB.empty with
          movimientos := [{ id := 1, fecha := ⟨2024, 3, 15⟩, tipo := "gasto",
                            categoria := "Comida", monto := 500000, descripcion := "",
                            mes := 3, anio := 2024, user_id := 42 }],
          balance_diario := [{ fecha := ⟨2024, 3, 15⟩, ingresos := 0, gastos := 500000,
                               ahorros := 0, balance_final := 0, user_id := 42 }],
          next_mov_id := 2 }
      1 42).1 = true ∧
    ¬ balanceDiarioCoherente
      (eliminar_movimiento
        { DB.empty with
            movimientos := [{ id := 1, fecha := ⟨2024, 3, 15⟩, tipo := "gasto",
                              categoria := "Comida", monto := 500000, descripcion := "",
                              mes := 3, anio := 2024, user_id := 42 }],
            balance_diario := [{ fecha := ⟨2024, 3, 15⟩, ingresos := 0, gastos := 500000,
                                 ahorros := 0, balance_final := 0, user_id := 42 }],
            next_mov_id := 2 }
        1 42).2
      42 ⟨2024, 3, 15⟩ := by
  constructor
  · decide
  · decide

/-- C3 (amended): `agregar_movimiento` leaves both derived summaries
coherent for the affected keys (the monthly row is deleted, the daily row
is recomputed); `eliminar_movimiento` and `procesar_suscripcion`
invalidate the affected monthly-summary row in the same transaction but do
not touch the `balance_diario` table, whose row for the affected date may
therefore remain stale. -/
theorem derived_summaries_after_writes (hoy : Date) (db : DB) (uid : ℤ)
    (tipo categoria : String) (monto : ℤ) (descripcion : String)
    (movimiento_id suscripcion_id : ℕ)
    (htipo : tipo ∈ BotConstants.MOVEMENT_TYPES)
    (hm : BotConstants.MIN_AMOUNT ≤ monto ∧ monto ≤ BotConstants.MAX_AMOUNT) :
    (resumenCoherente (agregar_movimiento hoy db uid tipo categoria monto descripcion).2
        uid hoy.month hoy.year ∧
     balanceDiarioCoherente (agregar_movimiento hoy db uid tipo categoria monto descripcion).2
        uid hoy) ∧
    (∀ mv, (db.movimientos.filter
        (fun m => m.id = movimiento_id ∧ m.user_id = uid)).head? = some mv →
      (eliminar_movimiento db movimiento_id uid).1 = true ∧
      resumenCoherente (eliminar_movimiento db movimiento_id uid).2 uid mv.mes mv.anio ∧
      (eliminar_movimiento db movimiento_id uid).2.balance_diario = db.balance_diario) ∧
    (∀ s, (db.suscripciones.filter
        (fun x => x.id = suscripcion_id ∧ x.activo)).head? = some s →
      hoy.Valid → 1 ≤ s.dia_cobro →
      resumenCoherente (procesar_suscripcion hoy db suscripcion_id).2
        s.user_id hoy.month hoy.year ∧
      (procesar_suscripcion hoy db suscripcion_id).2.balance_diario = db.balance_diario) := by
  refine ⟨⟨?_, ?_⟩, ?_, ?_⟩
  · -- add_movement: the affected monthly-summary row was deleted
    unfold agregar_movimiento
    rw [if_neg (not_not_intro htipo), if_neg (not_not_intro hm)]
    dsimp only
    intro r hr hkey
    rw [(verificar_frame _ _ _ _ _).2.2.2] at hr
    rw [(actualizar_frame _ _ _).2.2.2] at hr
    exact absurd hkey (invalidar_no_key _ _ _ _ r hr)
  · -- add_movement: the daily summary was recomputed over the new table
    unfold agregar_movimiento
    rw [if_neg (not_not_intro htipo), if_neg (not_not_intro hm)]
    dsimp only
    intro r hr hkey
    rw [(verificar_frame _ _ _ _ _).2.2.1] at hr
    unfold actualizarBalanceDiario at hr
    dsimp only at hr
    rcases List.mem_append.mp hr with hr | hr
    · have h := List.of_mem_filter hr
      simp only [decide_not, Bool.not_eq_true', decide_eq_false_iff_not] at h
      exact absurd ⟨hkey.2, hkey.1⟩ h
    · rw [List.mem_singleton] at hr
      subst hr
      rw [(verificar_frame _ _ _ _ _).1, (actualizar_frame _ _ _).1]
      exact ⟨rfl, rfl, rfl⟩
  · -- delete_movement: monthly row deleted, daily table untouched
    intro mv hfound
    unfold eliminar_movimiento
    rw [hfound]
    refine ⟨rfl, ?_, rfl⟩
    intro r hr hkey
    exact absurd hkey (invalidar_no_key _ _ _ _ r hr)
  · -- process_subscription: monthly row deleted, daily table untouched
    intro s hfound hv hdia
    unfold procesar_suscripcion
    rw [hfound]
    dsimp only
    rw [mkDate_next_month hoy hv s.dia_cobro hdia]
    refine ⟨?_, rfl⟩
    intro r hr hkey
    exact absurd hkey (invalidar_no_key _ _ _ _ r hr)

/-- Witness for the derived-summary theorem: a valid expense write on a
database holding one prior movement, a stale monthly row, one active
subscription and a daily row. -/
theorem derived_summaries_after_writes_witness :
    ("gasto" ∈ BotConstants.MOVEMENT_TYPES ∧
      BotConstants.MIN_AMOUNT ≤ (400000 : ℤ) ∧
      (400000 : ℤ) ≤ BotConstants.MAX_AMOUNT) ∧
    ((resumenCoherente (agregar_movimiento ⟨2024, 3, 15⟩ DB.empty 42 "gasto" "Comida"
        400000 "").2 42 3 2024 ∧
      balanceDiarioCoherente (agregar_movimiento ⟨2024, 3, 15⟩ DB.empty 42 "gasto" "Comida"
        400000 "").2 42 ⟨2024, 3, 15⟩) ∧
    (∀ mv, (DB.empty.movimientos.filter
        (fun m => m.id = 1 ∧ m.user_id = 42)).head? = some mv →
      (eliminar_movimiento DB.empty 1 42).1 = true ∧
      resumenCoherente (eliminar_movimiento DB.empty 1 42).2 42 mv.mes mv.anio ∧
      (eliminar_movimiento DB.empty 1 42).2.balance_diario = DB.empty.balance_diario) ∧
    (∀ s, (DB.empty.suscripciones.filter
        (fun x => x.id = 1 ∧ x.activo)).head? = some s →
      Date.Valid ⟨2024, 3, 15⟩ → 1 ≤ s.dia_cobro →
      resumenCoherente (procesar_suscripcion ⟨2024, 3, 15⟩ DB.empty 1).2
        s.user_id 3 2024 ∧
      (procesar_suscripcion ⟨2024, 3, 15⟩ DB.empty 1).2.balance_diario =
        DB.empty.balance_diario)) :=
  ⟨⟨by decide, by decide, by decide⟩,
   derived_summaries_after_writes ⟨2024, 3, 15⟩ DB.empty 42 "gasto" "Comida" 400000 "" 1 1
     (by decide) ⟨by decide, by decide⟩⟩

/-- C5: processing an existing active subscription inserts exactly one
expense movement carrying the subscription's amount and category and the
description `"Suscripción: {nombre}"` (rendered "Subscription: {name}" in
the spec), advances `proximo_cobro` to the next month's
`min(dia_cobro, days in that month)` — a date strictly greater than today
— and returns the processed record; a missing or inactive subscription id
returns `none` and leaves the database unchanged. -/
theorem procesar_suscripcion_spec (hoy : Date) (db : DB) (suscripcion_id : ℕ)
    (hv : hoy.Valid) :
    (∀ s, (db.suscripciones.filter
        (fun x => x.id = suscripcion_id ∧ x.activo)).head? = some s →
      1 ≤ s.dia_cobro →
      (procesar_suscripcion hoy db suscripcion_id).1 =
        some { nombre := s.nombre, monto := s.monto, categoria := s.categoria,
               user_id := s.user_id } ∧
      (procesar_suscripcion hoy db suscripcion_id).2.movimientos =
        db.movimientos ++
          [{ id := db.next_mov_id, fecha := hoy, tipo := "gasto",
             categoria := s.categoria, monto := s.monto,
             descripcion := "Suscripción: " ++ s.nombre,
             mes := hoy.month, anio := hoy.year, user_id := s.user_id }] ∧
      (procesar_suscripcion hoy db suscripcion_id).2.suscripciones =
        db.suscripciones.map (fun x => if x.id = suscripcion_id then
          { x with proximo_cobro :=
              ⟨if hoy.month = 12 then hoy.year + 1 else hoy.year,
               if hoy.month = 12 then 1 else hoy.month + 1,
               min s.dia_cobro
                 (daysInMonth (if hoy.month = 12 then hoy.year + 1 else hoy.year)
                   (if hoy.month = 12 then 1 else hoy.month + 1))⟩ }
          else x) ∧
      Date.lt hoy
        ⟨if hoy.month = 12 then hoy.year + 1 else hoy.year,
         if hoy.month = 12 then 1 else hoy.month + 1,
         min s.dia_cobro
           (daysInMonth (if hoy.month = 12 then hoy.year + 1 else hoy.year)
             (if hoy.month = 12 then 1 else hoy.month + 1))⟩ = true) ∧
    ((db.suscripciones.filter
        (fun x => x.id = suscripcion_id ∧ x.activo)).head? = none →
      procesar_suscripcion hoy db suscripcion_id = (none, db)) := by
  constructor
  · intro s hfound hdia
    unfold procesar_suscripcion
    rw [hfound]
    dsimp only
    rw [mkDate_next_month hoy hv s.dia_cobro hdia]
    exact ⟨rfl, rfl, rfl, lt_next_month hoy _⟩
  · intro hnone
    unfold procesar_suscripcion
    rw [hnone]

/-- Witness for the subscription-processing theorem: the spec scenario —
"Netflix", 15000.00, category "Entretenimiento", charge day 10, processed
on 2024-04-10 advances `proximo_cobro` to 2024-05-10. -/
theorem procesar_suscripcion_spec_witness :
    Date.Valid ⟨2024, 4, 10⟩ ∧
    ((procesar_suscripcion ⟨2024, 4, 10⟩
        { DB.empty with suscripciones :=
            [{ id := 1, nombre := "Netflix", monto := 1500000,
               categoria := "Entretenimiento", dia_cobro := 10, activo := true,
               proximo_cobro := ⟨2024, 4, 10⟩, user_id := 42 }] }
        1).1 =
      some { nombre := "Netflix", monto := 1500000, categoria := "Entretenimiento",
             user_id := 42 } ∧
     (procesar_suscripcion ⟨2024, 4, 10⟩
        { DB.empty with suscripciones :=
            [{ id := 1, nombre := "Netflix", monto := 1500000,
               categoria := "Entretenimiento", dia_cobro := 10, activo := true,
               proximo_cobro := ⟨2024, 4, 10⟩, user_id := 42 }] }
        1).2.suscripciones =
      [{ id := 1, nombre := "Netflix", monto := 1500000,
         categoria := "Entretenimiento", dia_cobro := 10, activo := true,
         proximo_cobro := ⟨2024, 5, 10⟩, user_id := 42 }]) := by
  have h := (procesar_suscripcion_spec ⟨2024, 4, 10⟩
    { DB.empty with suscripciones :=
        [{ id := 1, nombre := "Netflix", monto := 1500000,
           categoria := "Entretenimiento", dia_cobro := 10, activo := true,
           proximo_cobro := ⟨2024, 4, 10⟩, user_id := 42 }] }
    1 (by decide)).1
    { id := 1, nombre := "Netflix", monto := 1500000,
      categoria := "Entretenimiento", dia_cobro := 10, activo := true,
      proximo_cobro := ⟨2024, 4, 10⟩, user_id := 42 }
    (by decide) (by decide)
  refine ⟨by decide, h.1, ?_⟩
  rw [h.2.2.1]
  decide

/-- Counterexample to C6 as stated: on 2024-02-20 (February has 29 days),
a charge day of 30 takes the current-month branch of
`agregar_suscripcion`, where the day is not clamped; `date(2024, 2, 30)`
raises and the operation fails instead of succeeding with a clamped
date. -/
theorem agregar_suscripcion_clamp_counterexample :
    (1 ≤ 30 ∧ 30 ≤ 31) ∧
    agregar_suscripcion ⟨2024, 2, 20⟩ DB.empty 42 "Netflix" 1500000 "Entretenimiento" 30 =
      (false, DB.empty) := by
  exact ⟨by decide, by decide⟩

/-- C6 (amended): for a valid charge day in `[1, 31]`, the computed first
or next charge date is clamped to `min(dia_cobro, days in target month)`
and the computation succeeds in the next-month branch of
`agregar_suscripcion` (when `dia_cobro ≤ hoy.day`) and always in
`procesar_suscripcion`; but in the current-month branch of
`agregar_suscripcion` (when `dia_cobro > hoy.day`) the day is used
unclamped: the insert succeeds exactly when `dia_cobro` fits in the
current month and otherwise the operation returns false, inserting
nothing. -/
theorem suscripcion_day_clamping (hoy : Date) (db : DB) (uid : ℤ)
    (nombre : String) (monto : ℤ) (categoria : String)
    (dia_cobro suscripcion_id : ℕ) (hv : hoy.Valid)
    (hdia : 1 ≤ dia_cobro ∧ dia_cobro ≤ 31)
    (hm : BotConstants.MIN_AMOUNT ≤ monto ∧ monto ≤ BotConstants.MAX_AMOUNT)
    (hn : (pyStrip nombre).length ≤ BotConstants.MAX_SUBSCRIPTION_NAME_LENGTH) :
    (dia_cobro ≤ hoy.day →
      (agregar_suscripcion hoy db uid nombre monto categoria dia_cobro).1 = true ∧
      (agregar_suscripcion hoy db uid nombre monto categoria dia_cobro).2.suscripciones =
        db.suscripciones ++
          [{ id := db.next_sus_id, nombre := pyStrip nombre, monto := monto,
             categoria := categoria, dia_cobro := dia_cobro, activo := true,
             proximo_cobro :=
               ⟨if hoy.month = 12 then hoy.year + 1 else hoy.year,
                if hoy.month = 12 then 1 else hoy.month + 1,
                min dia_cobro
                  (daysInMonth (if hoy.month = 12 then hoy.year + 1 else hoy.year)
                    (if hoy.month = 12 then 1 else hoy.month + 1))⟩,
             user_id := uid }]) ∧
    (hoy.day < dia_cobro → dia_cobro ≤ daysInMonth hoy.year hoy.month →
      (agregar_suscripcion hoy db uid nombre monto categoria dia_cobro).1 = true ∧
      (agregar_suscripcion hoy db uid nombre monto categoria dia_cobro).2.suscripciones =
        db.suscripciones ++
          [{ id := db.next_sus_id, nombre := pyStrip nombre, monto := monto,
             categoria := categoria, dia_cobro := dia_cobro, activo := true,
             proximo_cobro := ⟨hoy.year, hoy.month, dia_cobro⟩, user_id := uid }]) ∧
    (hoy.day < dia_cobro → daysInMonth hoy.year hoy.month < dia_cobro →
      agregar_suscripcion hoy db uid nombre monto categoria dia_cobro = (false, db)) ∧
    (∀ s, (db.suscripciones.filter
        (fun x => x.id = suscripcion_id ∧ x.activo)).head? = some s →
      1 ≤ s.dia_cobro →
      ((procesar_suscripcion hoy db suscripcion_id).1).isSome = true) := by
  obtain ⟨hv1, hv2, hv3, hv4⟩ := hv
  refine ⟨?_, ?_, ?_, ?_⟩
  · intro hle
    unfold agregar_suscripcion
    rw [if_neg (not_not_intro hdia), if_neg (not_not_intro hm),
      if_neg (Nat.not_lt.mpr hn)]
    dsimp only
    rw [if_pos hle]
    by_cases h12 : hoy.month = 12
    · rw [if_pos h12]
      have hd31 : daysInMonth (hoy.year + 1) 1 = 31 := rfl
      have hmk : mkDate (hoy.year + 1) 1 (min dia_cobro 31) =
          some ⟨hoy.year + 1, 1, min dia_cobro 31⟩ := by
        unfold mkDate
        rw [if_pos]
        refine ⟨by omega, by omega, by omega, ?_⟩
        omega
      rw [hmk]
      refine ⟨rfl, ?_⟩
      simp only [if_pos h12]
      rw [hd31]
    · rw [if_neg h12]
      have hmk : mkDate hoy.year (hoy.month + 1)
          (min dia_cobro (daysInMonth hoy.year (hoy.month + 1))) =
          some ⟨hoy.year, hoy.month + 1,
                min dia_cobro (daysInMonth hoy.year (hoy.month + 1))⟩ := by
        have hp := daysInMonth_pos hoy.year (hoy.month + 1)
        unfold mkDate
        rw [if_pos]
        exact ⟨by omega, by omega, by omega, min_le_right _ _⟩
      rw [hmk]
      refine ⟨rfl, ?_⟩
      simp only [if_neg h12]
  · intro hgt hfits
    unfold agregar_suscripcion
    rw [if_neg (not_not_intro hdia), if_neg (not_not_intro hm),
      if_neg (Nat.not_lt.mpr hn)]
    dsimp only
    rw [if_neg (Nat.not_le.mpr hgt)]
    have hmk : mkDate hoy.year hoy.month dia_cobro =
        some ⟨hoy.year, hoy.month, dia_cobro⟩ := by
      unfold mkDate
      rw [if_pos]
      exact ⟨hv1, hv2, hdia.1, hfits⟩
    rw [hmk]
    exact ⟨rfl, rfl⟩
  · intro hgt hover
    unfold agregar_suscripcion
    rw [if_neg (not_not_intro hdia), if_neg (not_not_intro hm),
      if_neg (Nat.not_lt.mpr hn)]
    dsimp only
    rw [if_neg (Nat.not_le.mpr hgt)]
    have hmk : mkDate hoy.year hoy.month dia_cobro = none := by
      unfold mkDate
      rw [if_neg]
      intro hc
      omega
    rw [hmk]
  · intro s hfound hdias
    unfold procesar_suscripcion
    rw [hfound]
    dsimp only
    rw [mkDate_next_month hoy ⟨hv1, hv2, hv3, hv4⟩ s.dia_cobro hdias]
    rfl

/-- Witness for the clamping theorem: the spec boundary case — charge day
31 added on 2024-01-31 lands on the last day of (leap) February,
2024-02-29. -/
theorem suscripcion_day_clamping_witness :
    (Date.Valid ⟨2024, 1, 31⟩ ∧ (1 ≤ 31 ∧ 31 ≤ 31) ∧
      (BotConstants.MIN_AMOUNT ≤ (1500000 : ℤ) ∧
        (1500000 : ℤ) ≤ BotConstants.MAX_AMOUNT) ∧
      (pyStrip "Netflix").length ≤ BotConstants.MAX_SUBSCRIPTION_NAME_LENGTH) ∧
    ((31 ≤ 31) →
      (agregar_suscripcion ⟨2024, 1, 31⟩ DB.empty 42 "Netflix" 1500000
        "Entretenimiento" 31).2.suscripciones =
      DB.empty.suscripciones ++
        [{ id := DB.empty.next_sus_id, nombre := pyStrip "Netflix", monto := 1500000,
           categoria := "Entretenimiento", dia_cobro := 31, activo := true,
           proximo_cobro :=
             ⟨if (1 : ℕ) = 12 then 2024 + 1 else 2024,
              if (1 : ℕ) = 12 then 1 else 1 + 1,
              min 31 (daysInMonth (if (1 : ℕ) = 12 then 2024 + 1 else 2024)
                (if (1 : ℕ) = 12 then 1 else 1 + 1))⟩,
           user_id := 42 }]) ∧
    min 31 (daysInMonth 2024 2) = 29 :=
  ⟨⟨by decide, by decide, ⟨by decide, by decide⟩, by decide⟩,
   fun hle => ((suscripcion_day_clamping ⟨2024, 1, 31⟩ DB.empty 42 "Netflix" 1500000
     "Entretenimiento" 31 1 (by decide) (by decide) ⟨by decide, by decide⟩
     (by decide)).1 hle).2,
   by decide⟩

end FinanceBot
